import Mathlib

/-
Shallow embedding of the music-score grammar core of the
Music-Notation-Parser repository.

Embedded source files:
  src/src/models/token.py          : token kinds, clef and alteration enums, Token value
  src/src/config.py                : REFERENCE_IMAGES and the six pitch lookup tables
  src/src/parsers/image_parser.py  : the image classifier state machine
  src/src/parsers/music_parser.py  : the recursive-descent grammar analyzer

Modelling decisions, all documented at the definition they affect:
  * The spreadsheet traversal layer (excel_parser.py) is an external data
    source.  The token source is modelled as a list of tokens carried in the
    parser state; reading past the end of the list yields an UNKNOWN token
    (spec section 5: a missing or unavailable token is treated as an
    UNKNOWN-kind token and the parse continues).
  * The lexer side effect that stores a meter digit into meter_value and
    meter_controller at tokenization time (music_parser.py lines 120-125)
    fires when a METER token is pulled from the source.
  * The mutually recursive grammar productions are written as one fueled
    interpreter over a production tag, structurally recursive on the fuel,
    so that concrete runs reduce in the kernel.  Every recursive descent in
    the Python code either consumes a token or reaches a production that
    returns, so a fuel budget linear in the stream length is ample; the
    universally quantified theorems below are invariants preserved by every
    step and hold for every fuel value.
  * error_log is a ghost field: each call of the error recorder appends the
    message it produced, so that statements about first versus last
    diagnostic can be expressed.  No other definition inspects it.
-/

/-- Token kinds, mirroring TokenType in src/src/models/token.py. -/
inductive TokenType
  | UNKNOWN
  | END_OF_PARTITION
  | NAME
  | IDENTIFIER
  | INSTRUMENT
  | COLON
  | SEMICOLON
  | PERIOD
  | METER
  | CLEF_SOL
  | CLEF_FA
  | NOTE
  | PAUSE
  | HALF_PAUSE
  | ALTERATION_BEMOL
  | ALTERATION_DIESE
  | MEASURE_BAR
  | END_STAFF_BAR
deriving DecidableEq, Repr

/-- The .name attribute of the Python enum member (used in error text and
by the silence production). -/
def type_name : TokenType → String
  | .UNKNOWN => "UNKNOWN"
  | .END_OF_PARTITION => "END_OF_PARTITION"
  | .NAME => "NAME"
  | .IDENTIFIER => "IDENTIFIER"
  | .INSTRUMENT => "INSTRUMENT"
  | .COLON => "COLON"
  | .SEMICOLON => "SEMICOLON"
  | .PERIOD => "PERIOD"
  | .METER => "METER"
  | .CLEF_SOL => "CLEF_SOL"
  | .CLEF_FA => "CLEF_FA"
  | .NOTE => "NOTE"
  | .PAUSE => "PAUSE"
  | .HALF_PAUSE => "HALF_PAUSE"
  | .ALTERATION_BEMOL => "ALTERATION_BEMOL"
  | .ALTERATION_DIESE => "ALTERATION_DIESE"
  | .MEASURE_BAR => "MEASURE_BAR"
  | .END_STAFF_BAR => "END_STAFF_BAR"

/-- Clef kinds, mirroring ClefType in src/src/models/token.py. -/
inductive ClefType
  | NONE
  | SOL
  | FA
deriving DecidableEq, Repr, Fintype

/-- Alteration kinds, mirroring AlterationType in src/src/models/token.py. -/
inductive AlterationType
  | NONE
  | DIESE
  | BEMOL
deriving DecidableEq, Repr, Fintype

/-- The Optional[Union[str, int]] payload of a Python token: None, a string,
or a small integer (meter digit). -/
inductive TokenValue
  | vNone
  | vStr (s : String)
  | vInt (n : Int)
deriving DecidableEq, Repr

/-- Python str() of a token payload as it appears inside an f-string:
str(None) is the four letter string None. -/
def format_value : TokenValue → String
  | .vNone => "None"
  | .vStr s => s
  | .vInt n => toString n

/-- The Token dataclass of src/src/models/token.py.  The line and column
fields exist in the source but are never assigned or read by the core. -/
structure Token where
  type : TokenType
  value : TokenValue := .vNone
  clef : ClefType := .NONE
  alteration : AlterationType := .NONE
  line : Nat := 0
  column : String := ""
deriving DecidableEq, Repr

/-- Token.__str__ of src/src/models/token.py. -/
def token_str (t : Token) : String :=
  match t.value with
  | .vNone => "Token(" ++ type_name t.type ++ ")"
  | v => "Token(" ++ type_name t.type ++ ", " ++ format_value v ++ ")"

/-- REFERENCE_IMAGES from src/src/config.py: positions 0 to 15 are the pitch
images, positions 16 to 23 the structural images. -/
def REFERENCE_IMAGES : List String :=
  ["Note_H1.JPG", "Note_H2.JPG", "Note_H3.JPG", "Note_H4.JPG",
   "Note_H5.JPG", "Note_H6.JPG", "Note_H7.JPG", "Note_H8.JPG",
   "Note_H9.JPG", "Note_H10.JPG", "Note_H11.JPG", "Note_H12.JPG",
   "Note_H13.JPG", "Note_H14.JPG", "Note_H15.JPG", "Note_H16.JPG",
   "Note_PAUSE.JPG", "Note_DEMI_PAUSE.JPG", "BATON_MESURE.JPG",
   "Alteration_BEMOL.JPG", "Alteration_DIESE.JPG",
   "Note_CLE_SOL.JPG", "Note_CLE_FA.JPG", "BATON_FIN_PORTEE.JPG"]

/-- SOL_TOKENS from src/src/config.py. -/
def SOL_TOKENS : List String :=
  ["", "SOL_TOKEN_DO_MILIEU", "SOL_TOKEN_RE_L", "SOL_TOKEN_MI_L",
   "SOL_TOKEN_FA_L", "SOL_TOKEN_SOL_L", "SOL_TOKEN_LA_L", "SOL_TOKEN_SI_L",
   "SOL_TOKEN_DO_H", "SOL_TOKEN_RE_H", "SOL_TOKEN_MI_H", "SOL_TOKEN_FA_H",
   "SOL_TOKEN_SOL_H", "SOL_TOKEN_LA_H", "FA_TOKEN_SI_H", "FA_TOKEN_DO_H"]

/-- FA_TOKENS from src/src/config.py. -/
def FA_TOKENS : List String :=
  ["FA_TOKEN_DO_L", "FA_TOKEN_RE_L", "FA_TOKEN_MI_L", "FA_TOKEN_FA_L",
   "FA_TOKEN_SOL_L", "FA_TOKEN_LA_L", "FA_TOKEN_SI_L", "FA_TOKEN_DO_H",
   "FA_TOKEN_RE_H", "FA_TOKEN_MI_H", "FA_TOKEN_FA_H", "FA_TOKEN_SOL_H",
   "FA_TOKEN_LA_H", "FA_TOKEN_SI_H", "FA_TOKEN_DO_MILIEU", ""]

/-- SOL_SHARP_TOKENS from src/src/config.py. -/
def SOL_SHARP_TOKENS : List String :=
  ["FA_TOKEN_DO_L_SHARP", "FA_TOKEN_RE_L_SHARP", "", "FA_TOKEN_FA_L_SHARP",
   "FA_TOKEN_SOL_L_SHARP", "FA_TOKEN_LA_L_SHARP", "", "FA_TOKEN_DO_H_SHARP",
   "FA_TOKEN_RE_H_SHARP", "", "FA_TOKEN_FA_H_SHARP", "FA_TOKEN_SOL_H_SHARP",
   "FA_TOKEN_LA_H_SHARP", "", "FA_TOKEN_DO_MILIEU_SHARP", ""]

/-- FA_SHARP_TOKENS from src/src/config.py. -/
def FA_SHARP_TOKENS : List String :=
  ["", "SOL_TOKEN_DO_MILIEU_SHARP", "SOL_TOKEN_RE_L_SHARP", "",
   "SOL_TOKEN_FA_L_SHARP", "SOL_TOKEN_SOL_L_SHARP", "SOL_TOKEN_LA_L_SHARP", "",
   "SOL_TOKEN_DO_H_SHARP", "SOL_TOKEN_RE_H_SHARP", "", "SOL_TOKEN_FA_H_SHARP",
   "SOL_TOKEN_SOL_H_SHARP", "SOL_TOKEN_LA_H_SHARP", "", ""]

/-- FA_BEMOL_TOKENS from src/src/config.py. -/
def FA_BEMOL_TOKENS : List String :=
  ["", "FA_TOKEN_RE_L_BEMOL", "FA_TOKEN_MI_L_BEMOL", "",
   "FA_TOKEN_SOL_L_BEMOL", "FA_TOKEN_LA_L_BEMOL", "FA_TOKEN_SI_L_BEMOL", "",
   "FA_TOKEN_RE_H_BEMOL", "FA_TOKEN_MI_H_BEMOL", "FA_TOKEN_FA_H",
   "FA_TOKEN_SOL_H_BEMOL", "FA_TOKEN_LA_H_BEMOL", "FA_TOKEN_SI_SI_BEMOL", "", ""]

/-- SOL_BEMOL_TOKENS from src/src/config.py. -/
def SOL_BEMOL_TOKENS : List String :=
  ["", "", "SOL_TOKEN_RE_L_BEMOL", "SOL_TOKEN_MI_L_BEMOL", "",
   "SOL_TOKEN_SOL_L_BEMOL", "SOL_TOKEN_LA_L_BEMOL", "SOL_TOKEN_SI_L_BEMOL", "",
   "SOL_TOKEN_RE_H_BEMOL", "SOL_TOKEN_MI_H_BEMOL", "", "SOL_TOKEN_SOL_H_BEMOL",
   "SOL_TOKEN_LA_H_BEMOL", "FA_TOKEN_SI_H_BEMOL", ""]

/-- Mutable state of the image classifier (current_clef, current_alteration
of NotationImageParser in src/src/parsers/image_parser.py). -/
structure ImageParserState where
  current_clef : ClefType
  current_alteration : AlterationType
deriving DecidableEq, Repr

/-- reset_state of NotationImageParser (image_parser.py lines 40-43). -/
def image_reset_state (_st : ImageParserState) : ImageParserState :=
  ⟨ClefType.NONE, AlterationType.NONE⟩

/-- _create_unknown_token (image_parser.py lines 69-75). -/
def create_unknown_token (st : ImageParserState) : Token :=
  { type := .UNKNOWN, clef := st.current_clef, alteration := st.current_alteration }

/-- The try block of _identify_token_from_match (image_parser.py lines
117-135).  An outer none models a raised ValueError (matched image not in
REFERENCE_IMAGES) or IndexError (index beyond a lookup table), both caught
by the caller; the inner option is the note_token local, which stays None
when no clef or alteration branch assigned it. -/
def pitch_lookup (st : ImageParserState) (matched : String) : Option (Option String) :=
  match REFERENCE_IMAGES.findIdx? (· == matched) with
  | none => none
  | some idx =>
    match st.current_clef, st.current_alteration with
    | .SOL, .NONE => (SOL_TOKENS.get? idx).map Option.some
    | .SOL, .DIESE => (SOL_SHARP_TOKENS.get? idx).map Option.some
    | .SOL, .BEMOL => (SOL_BEMOL_TOKENS.get? idx).map Option.some
    | .FA, .NONE => (FA_TOKENS.get? idx).map Option.some
    | .FA, .DIESE => (FA_SHARP_TOKENS.get? idx).map Option.some
    | .FA, .BEMOL => (FA_BEMOL_TOKENS.get? idx).map Option.some
    | .NONE, _ => some none

/-- _identify_token_from_match (image_parser.py lines 77-151): the eight
structural images map directly to their token kinds, clef and accidental
images additionally overwrite the held context; any other image goes
through the pitch lookup.  On the exception path (outer none of
pitch_lookup) the alteration reset on line 138 is skipped, matching the
Python control flow where the raise happens before the reset. -/
def identify_token_from_match (st : ImageParserState) (matched : String) :
    Token × ImageParserState :=
  if matched = "Note_CLE_SOL.JPG" then
    let st := { st with current_clef := .SOL }
    ({ type := .CLEF_SOL, clef := st.current_clef }, st)
  else if matched = "Note_CLE_FA.JPG" then
    let st := { st with current_clef := .FA }
    ({ type := .CLEF_FA, clef := st.current_clef }, st)
  else if matched = "Note_PAUSE.JPG" then
    ({ type := .PAUSE, clef := st.current_clef }, st)
  else if matched = "Note_DEMI_PAUSE.JPG" then
    ({ type := .HALF_PAUSE, clef := st.current_clef }, st)
  else if matched = "BATON_MESURE.JPG" then
    ({ type := .MEASURE_BAR, clef := st.current_clef }, st)
  else if matched = "Alteration_BEMOL.JPG" then
    let st := { st with current_alteration := .BEMOL }
    ({ type := .ALTERATION_BEMOL, clef := st.current_clef }, st)
  else if matched = "Alteration_DIESE.JPG" then
    let st := { st with current_alteration := .DIESE }
    ({ type := .ALTERATION_DIESE, clef := st.current_clef }, st)
  else if matched = "BATON_FIN_PORTEE.JPG" then
    ({ type := .END_STAFF_BAR, clef := st.current_clef }, st)
  else
    match pitch_lookup st matched with
    | none => (create_unknown_token st, st)
    | some note_token =>
      let st := { st with current_alteration := .NONE }
      match note_token with
      | some v =>
        if v ≠ "" then
          ({ type := .NOTE, value := .vStr v, clef := st.current_clef }, st)
        else (create_unknown_token st, st)
      | none => (create_unknown_token st, st)

/-- The pitch reference image at a given position (positions 0 to 15). -/
def pitch_image (i : Nat) : String := REFERENCE_IMAGES.getD i ""

/-- The lookup table selected by a clef and alteration pair, as described in
spec section 3; with no clef there is no table, rendered as 16 empty
entries. -/
def table_for : ClefType → AlterationType → List String
  | .SOL, .NONE => SOL_TOKENS
  | .SOL, .DIESE => SOL_SHARP_TOKENS
  | .SOL, .BEMOL => SOL_BEMOL_TOKENS
  | .FA, .NONE => FA_TOKENS
  | .FA, .DIESE => FA_SHARP_TOKENS
  | .FA, .BEMOL => FA_BEMOL_TOKENS
  | .NONE, _ => List.replicate 16 ""

/-- The token the table lookup prescribes for a pitch position: a NOTE
carrying the table entry when a clef is held and the entry is non-empty,
otherwise an UNKNOWN token with no payload. -/
def expected_pitch_token (c : ClefType) (a : AlterationType) (i : Nat) : Token :=
  let e := (table_for c a).getD i ""
  if c ≠ .NONE ∧ e ≠ "" then { type := .NOTE, value := .vStr e, clef := c }
  else { type := .UNKNOWN, clef := c }

/-- Full state of a MusicNotationParser instance (music_parser.py lines
34-44) together with the token source.  rest models the remaining tokens of
the external excel reader; error_log is the ghost trail of recorded
diagnostics; image_state is the state of the owned image classifier. -/
structure MusicParserState where
  rest : List Token
  current_token : Option Token
  has_error : Bool
  error_message : String
  error_log : List String
  partition_name : TokenValue
  instrument_name : TokenValue
  meter_value : Int
  meter_controller : Int
  note_tokens_fa : List String
  note_tokens_sol : List String
  image_state : ImageParserState
deriving DecidableEq, Repr

/-- The token produced when the source is exhausted: spec section 5 treats a
missing token as an UNKNOWN-kind token. -/
def end_of_source_token : Token := { type := .UNKNOWN }

/-- The single-slot lookahead.  Python dereferences current_token directly;
it is never None once parse has performed its first read, so the default is
unreachable in any run considered here. -/
def curr (s : MusicParserState) : Token :=
  s.current_token.getD end_of_source_token

/-- _read_next_token (music_parser.py lines 87-96) over the list model of
the token source.  Pulling a METER token performs the lexer side effect of
lines 120-125: the digit seeds both meter_value and meter_controller. -/
def read_next_token (s : MusicParserState) : MusicParserState :=
  match s.rest with
  | [] => { s with current_token := some end_of_source_token }
  | t :: ts =>
    let s1 := { s with rest := ts, current_token := some t }
    match t.value, t.type with
    | .vInt v, .METER => { s1 with meter_value := v, meter_controller := v }
    | _, _ => s1

/-- _error (music_parser.py lines 162-171): set the error flag, store the
message, and (ghost) append it to the log. -/
def record_error (s : MusicParserState) (context : String) : MusicParserState :=
  let msg := "Syntax error in " ++ context ++ ": Unexpected token " ++ token_str (curr s)
  { s with has_error := true, error_message := msg, error_log := s.error_log ++ [msg] }

/-- _expect (music_parser.py lines 173-189): on a kind mismatch record an
error and return false; on a match advance the lookahead and return true. -/
def expect (s : MusicParserState) (expected : TokenType) (context : String) :
    Bool × MusicParserState :=
  if (curr s).type ≠ expected then
    (false,
     record_error s
       (context ++ " (expected " ++ type_name expected ++ ", got " ++
        type_name (curr s).type ++ ")"))
  else
    (true, read_next_token s)

/-- The early-return idiom `if not self._expect(...): return` of the Python
code: run the continuation only when the expectation was met. -/
def expect_then (s : MusicParserState) (expected : TokenType) (context : String)
    (cont : MusicParserState → MusicParserState) : MusicParserState :=
  let r := expect s expected context
  if r.1 then cont r.2 else r.2

/-- The meter decrement at the head of _parse_symbol (music_parser.py lines
315-317): decremented only while still positive. -/
def meter_decrement (s : MusicParserState) : MusicParserState :=
  if s.meter_controller > 0 then
    { s with meter_controller := s.meter_controller - 1 }
  else s

/-- The measure validation at the tail of _parse_measure (music_parser.py
lines 298-302): with a meter set and a non-zero live counter, log a
semantic warning (no error flag) and reset the counter to the meter
value. -/
def measure_check (s : MusicParserState) : MusicParserState :=
  if s.meter_value ≠ -1 ∧ s.meter_controller ≠ 0 then
    { s with meter_controller := s.meter_value }
  else s

/-- _parse_meter (music_parser.py lines 267-280). -/
def parse_meter (s : MusicParserState) : MusicParserState :=
  if (curr s).type = .METER then read_next_token s
  else if (curr s).type = .ALTERATION_DIESE ∨ (curr s).type = .ALTERATION_BEMOL ∨
          (curr s).type = .PAUSE ∨ (curr s).type = .HALF_PAUSE ∨
          (curr s).type = .NOTE then
    s
  else record_error s "meter"

/-- _parse_alteration (music_parser.py lines 338-345). -/
def parse_alteration (s : MusicParserState) : MusicParserState :=
  if (curr s).type = .ALTERATION_DIESE ∨ (curr s).type = .ALTERATION_BEMOL then
    read_next_token s
  else if (curr s).type ≠ .NOTE then record_error s "alteration"
  else s

/-- Python str.startswith, written over the character list (the byte-based
String.startsWith of core does not reduce inside the kernel). -/
def starts_with (v p : String) : Bool :=
  decide (v.toList.take p.toList.length = p.toList)

/-- Python str.endswith, written over the character list. -/
def ends_with (v p : String) : Bool :=
  decide (v.toList.drop (v.toList.length - p.toList.length) = p.toList ∧
          p.toList.length ≤ v.toList.length)

/-- _parse_note_height (music_parser.py lines 347-361).  Line 207-style
lookahead gives the payload; a non-empty payload is suffixed with the
instrument name (Python f-string, so a None instrument prints as None) and
appended to the FA list when it starts with FA_TOKEN, else to the SOL list.
A None payload is skipped (a non-string payload cannot reach a NOTE token
in this repository: the classifier only emits string payloads for NOTE). -/
def parse_note_height (s : MusicParserState) : MusicParserState :=
  if (curr s).type = .NOTE then
    match (curr s).value with
    | .vStr v =>
      if v ≠ "" then
        let note_with_instrument := v ++ "_" ++ format_value s.instrument_name
        if starts_with v "FA_TOKEN" then
          { s with note_tokens_fa := s.note_tokens_fa ++ [note_with_instrument] }
        else
          { s with note_tokens_sol := s.note_tokens_sol ++ [note_with_instrument] }
      else s
    | _ => s
  else record_error s "note height"

/-- _parse_note (music_parser.py lines 328-336). -/
def parse_note (s : MusicParserState) : MusicParserState :=
  parse_note_height (parse_alteration s)

/-- _parse_silence (music_parser.py lines 363-373): append the kind name of
the current token to the list selected by the clef recorded on the token. -/
def parse_silence (s : MusicParserState) : MusicParserState :=
  let silence_type := type_name (curr s).type
  if (curr s).clef = .FA then
    { s with note_tokens_fa := s.note_tokens_fa ++ [silence_type] }
  else
    { s with note_tokens_sol := s.note_tokens_sol ++ [silence_type] }

/-- Tags for the mutually recursive grammar productions of
music_parser.py. -/
inductive Production
  | multiple_staffs
  | staff
  | measures
  | measure
  | symbols
  | symbol
  | additional_symbols
  | additional_measures
deriving DecidableEq, Repr

/-- The mutually recursive productions _parse_multiple_staffs, _parse_staff,
_parse_measures, _parse_measure, _parse_symbols, _parse_symbol,
_parse_additional_symbols and _parse_additional_measures (music_parser.py
lines 238-403), written as one interpreter structurally recursive on a fuel
bound so that concrete runs reduce in the kernel.  Exhausted fuel returns
the state unchanged; the entry point supplies ample fuel. -/
def run_grammar : Nat → Production → MusicParserState → MusicParserState
  | 0, _, s => s
  | Nat.succ n, p, s =>
    match p with
    | .multiple_staffs =>
      if (curr s).type = .END_OF_PARTITION then s
      else if (curr s).type = .CLEF_SOL ∨ (curr s).type = .CLEF_FA then
        let s1 := run_grammar n .staff s
        let s2 := { s1 with meter_value := -1, meter_controller := -1 }
        run_grammar n .multiple_staffs s2
      else record_error s "multiple staffs"
    | .staff =>
      let s1 := read_next_token s
      let s2 := parse_meter s1
      run_grammar n .measures s2
    | .measures =>
      let s1 := run_grammar n .measure s
      let s2 := run_grammar n .additional_measures s1
      (expect s2 .END_STAFF_BAR "end of staff").2
    | .measure =>
      measure_check (run_grammar n .symbols s)
    | .symbols =>
      let s1 := run_grammar n .symbol s
      run_grammar n .additional_symbols s1
    | .symbol =>
      let s1 := meter_decrement s
      let s2 :=
        if (curr s1).type = .ALTERATION_DIESE ∨ (curr s1).type = .ALTERATION_BEMOL ∨
           (curr s1).type = .NOTE then
          parse_note s1
        else if (curr s1).type = .PAUSE ∨ (curr s1).type = .HALF_PAUSE then
          parse_silence s1
        else record_error s1 "symbol"
      read_next_token s2
    | .additional_symbols =>
      if (curr s).type = .ALTERATION_DIESE ∨ (curr s).type = .ALTERATION_BEMOL ∨
         (curr s).type = .PAUSE ∨ (curr s).type = .HALF_PAUSE ∨
         (curr s).type = .NOTE then
        let s1 := run_grammar n .symbol s
        run_grammar n .additional_symbols s1
      else if (curr s).type = .END_STAFF_BAR ∨ (curr s).type = .MEASURE_BAR ∨
              (curr s).type = .CLEF_SOL ∨ (curr s).type = .CLEF_FA ∨
              (curr s).type = .END_OF_PARTITION then
        s
      else record_error s "additional symbols"
    | .additional_measures =>
      if (curr s).type = .MEASURE_BAR then
        let s1 := read_next_token s
        let s2 := run_grammar n .measure s1
        run_grammar n .additional_measures s2
      else if (curr s).type ≠ .END_STAFF_BAR then record_error s "additional measures"
      else s

/-- _parse_partition (music_parser.py lines 191-236).  The two capture
lines 207 and 225 read self.current_token AFTER _expect advanced past the
IDENTIFIER, so they store the payload of the following SEMICOLON and PERIOD
token (None), not the identifier payload. -/
def parse_partition (fuel : Nat) (s : MusicParserState) : MusicParserState :=
  expect_then s .NAME "partition name declaration" fun s =>
  expect_then s .COLON "partition name declaration" fun s =>
  expect_then s .IDENTIFIER "partition name" fun s =>
  let s := { s with partition_name := (curr s).value }
  expect_then s .SEMICOLON "partition name terminator" fun s =>
  expect_then s .INSTRUMENT "instrument declaration" fun s =>
  expect_then s .COLON "instrument declaration" fun s =>
  expect_then s .IDENTIFIER "instrument name" fun s =>
  let s := { s with instrument_name := (curr s).value }
  expect_then s .PERIOD "instrument declaration terminator" fun s =>
  let s := run_grammar fuel .multiple_staffs s
  (expect s .END_OF_PARTITION "end of partition").2

/-- reset_state (music_parser.py lines 46-57), which also resets the owned
image classifier.  The ghost error_log starts empty; the token source is
untouched (it belongs to the external reader). -/
def reset_state (s : MusicParserState) : MusicParserState :=
  { s with
    current_token := none
    has_error := false
    error_message := ""
    error_log := []
    partition_name := .vStr ""
    instrument_name := .vStr ""
    meter_value := -1
    meter_controller := -1
    note_tokens_fa := []
    note_tokens_sol := []
    image_state := image_reset_state s.image_state }

/-- A freshly constructed parser over a given token source: __init__
(music_parser.py lines 26-44) sets exactly the values reset_state sets. -/
def init_state (ts : List Token) : MusicParserState :=
  { rest := ts
    current_token := none
    has_error := false
    error_message := ""
    error_log := []
    partition_name := .vStr ""
    instrument_name := .vStr ""
    meter_value := -1
    meter_controller := -1
    note_tokens_fa := []
    note_tokens_sol := []
    image_state := ⟨.NONE, .NONE⟩ }

/-- The body of parse (music_parser.py lines 59-76): reset, read the first
token, descend into the partition production.  The fuel bound is ample for
the recursion depth of any run over the carried source (see the header
note); all universal theorems below hold for every fuel value. -/
def parse_run (s : MusicParserState) : MusicParserState :=
  let s0 := reset_state s
  let s1 := read_next_token s0
  parse_partition (4 * s0.rest.length + 16) s1

/-- The boolean result of parse: not self.has_error. -/
def parse (s : MusicParserState) : Bool := !(parse_run s).has_error

/-- Run a fresh parser over a token stream and return its final state. -/
def parse_stream (ts : List Token) : MusicParserState := parse_run (init_state ts)

/-- The boolean parse result over a token stream. -/
def parse_stream_ok (ts : List Token) : Bool := parse (init_state ts)

/-- The token stream of the valid partition header
Nom: Test; Instrument: Piano. -/
def header_stream : List Token :=
  [{ type := .NAME }, { type := .COLON },
   { type := .IDENTIFIER, value := .vStr "Test" },
   { type := .SEMICOLON }, { type := .INSTRUMENT }, { type := .COLON },
   { type := .IDENTIFIER, value := .vStr "Piano" }, { type := .PERIOD }]

/-- Valid header, one treble staff with one resolved note, for claim C1. -/
def ex1_stream : List Token :=
  header_stream ++
  [{ type := .CLEF_SOL, clef := .SOL },
   { type := .NOTE, value := .vStr "SOL_TOKEN_DO_H", clef := .SOL },
   { type := .END_STAFF_BAR, clef := .SOL },
   { type := .END_OF_PARTITION }]

/-- The minimal valid input of spec section 8, for claim C2. -/
def ex2_stream : List Token :=
  header_stream ++
  [{ type := .CLEF_SOL, clef := .SOL },
   { type := .NOTE, value := .vStr "SOL_TOKEN_SOL_L", clef := .SOL },
   { type := .END_STAFF_BAR, clef := .SOL },
   { type := .END_OF_PARTITION }]

/-- Valid header followed by an UNKNOWN token inside a staff: the first
mismatch is recorded by the meter production, a second one by the symbol
production, and a note is still emitted afterwards.  For claim C4. -/
def ex4_stream : List Token :=
  header_stream ++
  [{ type := .CLEF_SOL, clef := .SOL },
   { type := .UNKNOWN, clef := .SOL },
   { type := .NOTE, value := .vStr "SOL_TOKEN_RE_L", clef := .SOL },
   { type := .END_STAFF_BAR, clef := .SOL },
   { type := .END_OF_PARTITION }]

/-- Valid input declaring meter 3 but containing a single-symbol measure:
the measure check fires (counter 2, not 0) yet nothing fatal happens.  For
claim C9. -/
def ex9_stream : List Token :=
  header_stream ++
  [{ type := .CLEF_SOL, clef := .SOL },
   { type := .METER, value := .vInt 3 },
   { type := .NOTE, value := .vStr "SOL_TOKEN_MI_L", clef := .SOL },
   { type := .END_STAFF_BAR, clef := .SOL },
   { type := .END_OF_PARTITION }]

/-- A parser state holding a given lookahead token, over an empty source. -/
def sample_token_state (t : Token) : MusicParserState :=
  { init_state [] with current_token := some t }

/-- The error-reporting invariant: the error flag is set exactly when the
ghost log is non-empty, and the stored message is the last recorded one. -/
def ErrInv (s : MusicParserState) : Prop :=
  s.has_error = !s.error_log.isEmpty ∧
  (s.error_log ≠ [] → s.error_log.getLast? = some s.error_message)

lemma errInv_of_fields {s s' : MusicParserState}
    (he : s'.has_error = s.has_error) (hl : s'.error_log = s.error_log)
    (hm : s'.error_message = s.error_message) (h : ErrInv s) : ErrInv s' := by
  unfold ErrInv at *
  rw [he, hl, hm]
  exact h

lemma errInv_record_error (s : MusicParserState) (c : String) :
    ErrInv (record_error s c) := by
  unfold ErrInv record_error
  constructor
  · cases s.error_log <;> simp [List.isEmpty]
  · intro _
    simp [List.getLast?_append]

lemma read_next_token_preserves (s : MusicParserState) :
    (read_next_token s).has_error = s.has_error ∧
    (read_next_token s).error_log = s.error_log ∧
    (read_next_token s).error_message = s.error_message ∧
    (read_next_token s).note_tokens_fa = s.note_tokens_fa ∧
    (read_next_token s).note_tokens_sol = s.note_tokens_sol ∧
    (read_next_token s).partition_name = s.partition_name ∧
    (read_next_token s).instrument_name = s.instrument_name := by
  unfold read_next_token
  cases s.rest with
  | nil => simp
  | cons t ts => dsimp only; split <;> simp

lemma errInv_read_next_token (s : MusicParserState) (h : ErrInv s) :
    ErrInv (read_next_token s) := by
  obtain ⟨h1, h2, h3, -⟩ := read_next_token_preserves s
  exact errInv_of_fields h1 h2 h3 h

lemma errInv_expect (s : MusicParserState) (k : TokenType) (c : String)
    (h : ErrInv s) : ErrInv (expect s k c).2 := by
  unfold expect
  split
  · exact errInv_record_error _ _
  · exact errInv_read_next_token _ h

lemma errInv_expect_then (s : MusicParserState) (k : TokenType) (c : String)
    (cont : MusicParserState → MusicParserState) (h : ErrInv s)
    (hcont : ∀ s', ErrInv s' → ErrInv (cont s')) :
    ErrInv (expect_then s k c cont) := by
  unfold expect_then
  dsimp only
  split
  · exact hcont _ (errInv_expect s k c h)
  · exact errInv_expect s k c h

lemma errInv_parse_meter (s : MusicParserState) (h : ErrInv s) :
    ErrInv (parse_meter s) := by
  unfold parse_meter
  split
  · exact errInv_read_next_token _ h
  · split
    · exact h
    · exact errInv_record_error _ _

lemma errInv_parse_alteration (s : MusicParserState) (h : ErrInv s) :
    ErrInv (parse_alteration s) := by
  unfold parse_alteration
  split
  · exact errInv_read_next_token _ h
  · split
    · exact errInv_record_error _ _
    · exact h

lemma errInv_parse_note_height (s : MusicParserState) (h : ErrInv s) :
    ErrInv (parse_note_height s) := by
  unfold parse_note_height
  split
  · split
    · split
      · split
        · exact errInv_of_fields rfl rfl rfl h
        · exact errInv_of_fields rfl rfl rfl h
      · exact h
    · exact h
  · exact errInv_record_error _ _

lemma errInv_parse_note (s : MusicParserState) (h : ErrInv s) :
    ErrInv (parse_note s) :=
  errInv_parse_note_height _ (errInv_parse_alteration _ h)

lemma errInv_parse_silence (s : MusicParserState) (h : ErrInv s) :
    ErrInv (parse_silence s) := by
  unfold parse_silence
  split
  · exact errInv_of_fields rfl rfl rfl h
  · exact errInv_of_fields rfl rfl rfl h

lemma errInv_meter_decrement (s : MusicParserState) (h : ErrInv s) :
    ErrInv (meter_decrement s) := by
  unfold meter_decrement
  split
  · exact errInv_of_fields rfl rfl rfl h
  · exact h

lemma errInv_measure_check (s : MusicParserState) (h : ErrInv s) :
    ErrInv (measure_check s) := by
  unfold measure_check
  split
  · exact errInv_of_fields rfl rfl rfl h
  · exact h

lemma errInv_run_grammar (n : Nat) :
    ∀ (p : Production) (s : MusicParserState), ErrInv s → ErrInv (run_grammar n p s) := by
  induction n with
  | zero =>
    intro p s h
    simpa [run_grammar] using h
  | succ n ih =>
    intro p s h
    cases p with
    | multiple_staffs =>
      simp only [run_grammar]
      split
      · exact h
      · split
        · exact ih _ _ (errInv_of_fields rfl rfl rfl (ih _ _ h))
        · exact errInv_record_error _ _
    | staff =>
      simp only [run_grammar]
      exact ih _ _ (errInv_parse_meter _ (errInv_read_next_token _ h))
    | measures =>
      simp only [run_grammar]
      exact errInv_expect _ _ _ (ih _ _ (ih _ _ h))
    | measure =>
      simp only [run_grammar]
      exact errInv_measure_check _ (ih _ _ h)
    | symbols =>
      simp only [run_grammar]
      exact ih _ _ (ih _ _ h)
    | symbol =>
      simp only [run_grammar]
      apply errInv_read_next_token
      split
      · exact errInv_parse_note _ (errInv_meter_decrement _ h)
      · split
        · exact errInv_parse_silence _ (errInv_meter_decrement _ h)
        · exact errInv_record_error _ _
    | additional_symbols =>
      simp only [run_grammar]
      split
      · exact ih _ _ (ih _ _ h)
      · split
        · exact h
        · exact errInv_record_error _ _
    | additional_measures =>
      simp only [run_grammar]
      split
      · exact ih _ _ (ih _ _ (errInv_read_next_token _ h))
      · split
        · exact errInv_record_error _ _
        · exact h

lemma errInv_parse_partition (fuel : Nat) (s : MusicParserState) (h : ErrInv s) :
    ErrInv (parse_partition fuel s) := by
  unfold parse_partition
  apply errInv_expect_then _ _ _ _ h
  intro s1 h1
  apply errInv_expect_then _ _ _ _ h1
  intro s2 h2
  apply errInv_expect_then _ _ _ _ h2
  intro s3 h3
  dsimp only
  refine errInv_expect_then _ _ _ _ ?_ ?_
  · exact errInv_of_fields rfl rfl rfl h3
  intro s4 h4
  apply errInv_expect_then _ _ _ _ h4
  intro s5 h5
  apply errInv_expect_then _ _ _ _ h5
  intro s6 h6
  apply errInv_expect_then _ _ _ _ h6
  intro s7 h7
  dsimp only
  refine errInv_expect_then _ _ _ _ ?_ ?_
  · exact errInv_of_fields rfl rfl rfl h7
  intro s8 h8
  dsimp only
  exact errInv_expect _ _ _ (errInv_run_grammar _ _ _ h8)

lemma errInv_reset_state (s : MusicParserState) : ErrInv (reset_state s) := by
  unfold ErrInv reset_state
  exact ⟨rfl, fun hne => absurd rfl hne⟩

lemma errInv_parse_run (s : MusicParserState) : ErrInv (parse_run s) := by
  unfold parse_run
  exact errInv_parse_partition _ _ (errInv_read_next_token _ (errInv_reset_state s))

lemma errInv_parse_stream (ts : List Token) : ErrInv (parse_stream ts) :=
  errInv_parse_run (init_state ts)

lemma parse_note_height_fa {s : MusicParserState} {t : Token} {v : String}
    (hc : s.current_token = some t) (ht : t.type = TokenType.NOTE)
    (hv : t.value = TokenValue.vStr v) (hne : v ≠ "")
    (hfa : starts_with v "FA_TOKEN" = true) :
    parse_note_height s =
      { s with note_tokens_fa :=
          s.note_tokens_fa ++ [v ++ "_" ++ format_value s.instrument_name] } := by
  have hcur : curr s = t := by simp [curr, hc]
  unfold parse_note_height
  rw [hcur, ht, hv]
  simp [hne, hfa]

lemma parse_note_height_sol {s : MusicParserState} {t : Token} {v : String}
    (hc : s.current_token = some t) (ht : t.type = TokenType.NOTE)
    (hv : t.value = TokenValue.vStr v) (hne : v ≠ "")
    (hfa : starts_with v "FA_TOKEN" = false) :
    parse_note_height s =
      { s with note_tokens_sol :=
          s.note_tokens_sol ++ [v ++ "_" ++ format_value s.instrument_name] } := by
  have hcur : curr s = t := by simp [curr, hc]
  unfold parse_note_height
  rw [hcur, ht, hv]
  simp [hne, hfa]

lemma notes_read_next_token (s : MusicParserState) :
    (read_next_token s).note_tokens_fa = s.note_tokens_fa ∧
    (read_next_token s).note_tokens_sol = s.note_tokens_sol := by
  obtain ⟨-, -, -, h4, h5, -⟩ := read_next_token_preserves s
  exact ⟨h4, h5⟩

lemma notes_expect (s : MusicParserState) (k : TokenType) (c : String) :
    ((expect s k c).2).note_tokens_fa = s.note_tokens_fa ∧
    ((expect s k c).2).note_tokens_sol = s.note_tokens_sol := by
  unfold expect
  split
  · exact ⟨rfl, rfl⟩
  · exact notes_read_next_token s

lemma notes_parse_meter (s : MusicParserState) :
    (parse_meter s).note_tokens_fa = s.note_tokens_fa ∧
    (parse_meter s).note_tokens_sol = s.note_tokens_sol := by
  unfold parse_meter
  split
  · exact notes_read_next_token s
  · split
    · exact ⟨rfl, rfl⟩
    · exact ⟨rfl, rfl⟩

lemma notes_parse_alteration (s : MusicParserState) :
    (parse_alteration s).note_tokens_fa = s.note_tokens_fa ∧
    (parse_alteration s).note_tokens_sol = s.note_tokens_sol := by
  unfold parse_alteration
  split
  · exact notes_read_next_token s
  · split
    · exact ⟨rfl, rfl⟩
    · exact ⟨rfl, rfl⟩

lemma notes_meter_decrement (s : MusicParserState) :
    (meter_decrement s).note_tokens_fa = s.note_tokens_fa ∧
    (meter_decrement s).note_tokens_sol = s.note_tokens_sol := by
  unfold meter_decrement
  split
  · exact ⟨rfl, rfl⟩
  · exact ⟨rfl, rfl⟩

lemma notes_measure_check (s : MusicParserState) :
    (measure_check s).note_tokens_fa = s.note_tokens_fa ∧
    (measure_check s).note_tokens_sol = s.note_tokens_sol := by
  unfold measure_check
  split
  · exact ⟨rfl, rfl⟩
  · exact ⟨rfl, rfl⟩

/-- C1: the claim says a successfully parsed header stores the IDENTIFIER
payload after NAME COLON as the partition name, the IDENTIFIER payload
after INSTRUMENT COLON as the instrument name, and suffixes every note
entry with an underscore and that instrument identifier.  The code reads
self.current_token after _expect has already advanced past the IDENTIFIER
(music_parser.py lines 204-207 and 222-225), so both stored names are the
None payload of the following punctuation token, and every note entry ends
in _None.  Evaluated at ex1_stream (identifiers Test and Piano): the parse
succeeds, both stored names are None, and the single emitted entry is
SOL_TOKEN_DO_H_None, which does not end with _Piano. -/
theorem C1_header_capture_misaligned :
    parse_stream_ok ex1_stream = true ∧
    (parse_stream ex1_stream).partition_name = TokenValue.vNone ∧
    (parse_stream ex1_stream).partition_name ≠ TokenValue.vStr "Test" ∧
    (parse_stream ex1_stream).instrument_name = TokenValue.vNone ∧
    (parse_stream ex1_stream).instrument_name ≠ TokenValue.vStr "Piano" ∧
    (parse_stream ex1_stream).note_tokens_sol = ["SOL_TOKEN_DO_H_None"] ∧
    ends_with "SOL_TOKEN_DO_H_None" "_Piano" = false := by
  decide

/-- C2: the claim says the minimal valid stream parses successfully with a
single SOL entry equal to the resolved payload followed by _Piano and an
empty FA sequence.  The parse does succeed and the FA sequence is empty,
but because of the capture misalignment of music_parser.py lines 222-225
the emitted entry is SOL_TOKEN_SOL_L_None, not SOL_TOKEN_SOL_L_Piano. -/
theorem C2_minimal_input_emits_none_suffix :
    parse_stream_ok ex2_stream = true ∧
    (parse_stream ex2_stream).note_tokens_fa = [] ∧
    (parse_stream ex2_stream).note_tokens_sol = ["SOL_TOKEN_SOL_L_None"] ∧
    (parse_stream ex2_stream).note_tokens_sol ≠ ["SOL_TOKEN_SOL_L_Piano"] := by
  decide

/-- C3: every non-empty SOL_SHARP_TOKENS entry begins with FA_TOKEN, so a
pitch classified under clef SOL with a held sharp yields a NOTE whose
payload the parser routes to the FA output list; symmetrically every
non-empty FA_SHARP_TOKENS entry begins with SOL_TOKEN (and not FA_TOKEN),
so it is routed to the SOL output list. -/
theorem C3_sharp_cross_clef_routing :
    (∀ i : Fin 16, SOL_SHARP_TOKENS.getD i.val "" ≠ "" →
        (identify_token_from_match ⟨.SOL, .DIESE⟩ (pitch_image i.val)).1
          = { type := .NOTE, value := .vStr (SOL_SHARP_TOKENS.getD i.val ""),
              clef := .SOL } ∧
        starts_with (SOL_SHARP_TOKENS.getD i.val "") "FA_TOKEN" = true) ∧
    (∀ i : Fin 16, FA_SHARP_TOKENS.getD i.val "" ≠ "" →
        (identify_token_from_match ⟨.FA, .DIESE⟩ (pitch_image i.val)).1
          = { type := .NOTE, value := .vStr (FA_SHARP_TOKENS.getD i.val ""),
              clef := .FA } ∧
        starts_with (FA_SHARP_TOKENS.getD i.val "") "SOL_TOKEN" = true ∧
        starts_with (FA_SHARP_TOKENS.getD i.val "") "FA_TOKEN" = false) ∧
    (∀ (s : MusicParserState) (t : Token) (v : String),
        s.current_token = some t → t.type = .NOTE → t.value = .vStr v → v ≠ "" →
        starts_with v "FA_TOKEN" = true →
        (parse_note_height s).note_tokens_fa
          = s.note_tokens_fa ++ [v ++ "_" ++ format_value s.instrument_name] ∧
        (parse_note_height s).note_tokens_sol = s.note_tokens_sol) ∧
    (∀ (s : MusicParserState) (t : Token) (v : String),
        s.current_token = some t → t.type = .NOTE → t.value = .vStr v → v ≠ "" →
        starts_with v "FA_TOKEN" = false →
        (parse_note_height s).note_tokens_sol
          = s.note_tokens_sol ++ [v ++ "_" ++ format_value s.instrument_name] ∧
        (parse_note_height s).note_tokens_fa = s.note_tokens_fa) := by
  refine ⟨by decide, by decide, ?_, ?_⟩
  · intro s t v hc ht hv hne hfa
    rw [parse_note_height_fa hc ht hv hne hfa]
    exact ⟨rfl, rfl⟩
  · intro s t v hc ht hv hne hfa
    rw [parse_note_height_sol hc ht hv hne hfa]
    exact ⟨rfl, rfl⟩

/-- A NOTE lookahead token used to instantiate C3: the SOL-clef sharp
resolution of pitch position 0. -/
def c3_note : Token :=
  { type := .NOTE, value := .vStr "FA_TOKEN_DO_L_SHARP", clef := .SOL }

/-- Witness for C3 at pitch position 0 and a concrete parser state. -/
theorem C3_witness :
    (SOL_SHARP_TOKENS.getD 0 "" ≠ "" ∧
     ((identify_token_from_match ⟨.SOL, .DIESE⟩ (pitch_image 0)).1
        = { type := .NOTE, value := .vStr (SOL_SHARP_TOKENS.getD 0 ""),
            clef := .SOL } ∧
      starts_with (SOL_SHARP_TOKENS.getD 0 "") "FA_TOKEN" = true)) ∧
    ((parse_note_height (sample_token_state c3_note)).note_tokens_fa
        = (sample_token_state c3_note).note_tokens_fa ++
          ["FA_TOKEN_DO_L_SHARP" ++ "_" ++
           format_value (sample_token_state c3_note).instrument_name] ∧
     (parse_note_height (sample_token_state c3_note)).note_tokens_sol
        = (sample_token_state c3_note).note_tokens_sol) :=
  ⟨⟨by decide, C3_sharp_cross_clef_routing.1 ⟨0, by decide⟩ (by decide)⟩,
   C3_sharp_cross_clef_routing.2.2.1 (sample_token_state c3_note) c3_note
     "FA_TOKEN_DO_L_SHARP" rfl rfl rfl (by decide) (by decide)⟩

/-- C4: the claim says the single reported diagnostic is the one produced
by the first mismatch and that the parser stops immediately, consuming no
further tokens and appending no further entries.  On ex4_stream the meter
production records the first mismatch, yet the symbol production then
records a second one that overwrites the message, a further NOTE token is
consumed and its entry appended, and the reported diagnostic is the second
message, not the first. -/
theorem C4_counterexample_two_errors :
    parse_stream_ok ex4_stream = false ∧
    (parse_stream ex4_stream).error_log =
      ["Syntax error in meter: Unexpected token Token(UNKNOWN)",
       "Syntax error in symbol: Unexpected token Token(UNKNOWN)"] ∧
    (parse_stream ex4_stream).error_message =
      "Syntax error in symbol: Unexpected token Token(UNKNOWN)" ∧
    (parse_stream ex4_stream).error_log.head? ≠
      some (parse_stream ex4_stream).error_message ∧
    (parse_stream ex4_stream).note_tokens_sol = ["SOL_TOKEN_RE_L_None"] := by
  decide

/-- C4 (amended): whenever any grammar mismatch is recorded during a parse,
parse() returns failure, and the reported diagnostic is the one produced by
the LAST mismatch encountered (later mismatches overwrite earlier ones);
the parser may keep consuming tokens and appending entries after the first
mismatch. -/
theorem C4_failure_reports_last_error :
    ∀ ts : List Token,
      (parse_stream ts).error_log ≠ [] →
      parse_stream_ok ts = false ∧
      (parse_stream ts).error_log.getLast? =
        some (parse_stream ts).error_message := by
  intro ts hne
  obtain ⟨h1, h2⟩ := errInv_parse_stream ts
  refine ⟨?_, h2 hne⟩
  have hie : (parse_stream ts).error_log.isEmpty = false := by
    cases hl : (parse_stream ts).error_log with
    | nil => exact absurd hl hne
    | cons a l => rfl
  show (!(parse_stream ts).has_error) = false
  rw [h1, hie]
  rfl

/-- Witness for C4 at the concrete stream ex4_stream. -/
theorem C4_witness :
    (parse_stream ex4_stream).error_log ≠ [] ∧
    (parse_stream_ok ex4_stream = false ∧
     (parse_stream ex4_stream).error_log.getLast? =
       some (parse_stream ex4_stream).error_message) :=
  ⟨by decide, C4_failure_reports_last_error ex4_stream (by decide)⟩

/-- C5: classifying an accidental image overwrites the held alteration;
the next pitch image is then resolved through the matching sharp or flat
table and, NOTE or UNKNOWN, leaves the held alteration at None, so a
subsequent pitch image resolves through the unaltered table. -/
theorem C5_alteration_consumed_by_next_pitch :
    (∀ (c : ClefType) (a : AlterationType),
        (identify_token_from_match ⟨c, a⟩ "Alteration_DIESE.JPG").2 = ⟨c, .DIESE⟩ ∧
        (identify_token_from_match ⟨c, a⟩ "Alteration_BEMOL.JPG").2 = ⟨c, .BEMOL⟩) ∧
    (∀ (c : ClefType) (i : Fin 16),
        identify_token_from_match ⟨c, .DIESE⟩ (pitch_image i.val)
          = (expected_pitch_token c .DIESE i.val, ⟨c, .NONE⟩) ∧
        identify_token_from_match ⟨c, .BEMOL⟩ (pitch_image i.val)
          = (expected_pitch_token c .BEMOL i.val, ⟨c, .NONE⟩)) ∧
    (∀ (c : ClefType) (j : Fin 16),
        identify_token_from_match ⟨c, .NONE⟩ (pitch_image j.val)
          = (expected_pitch_token c .NONE j.val, ⟨c, .NONE⟩)) := by
  refine ⟨?_, ?_, ?_⟩ <;> decide

/-- C6: a pitch image classified with no held clef, or whose lookup entry
is the empty string, yields an UNKNOWN token with no payload; the
classifier returns a token for every reference identifier instead of
raising (the raising lookups of the source are the caught ValueError and
IndexError paths, modelled by the none branch of pitch_lookup, which also
ends in an UNKNOWN token). -/
theorem C6_unknown_on_no_clef_or_empty_entry :
    (∀ (a : AlterationType) (i : Fin 16),
        (identify_token_from_match ⟨.NONE, a⟩ (pitch_image i.val)).1
          = { type := .UNKNOWN, clef := .NONE }) ∧
    (∀ (c : ClefType) (a : AlterationType) (i : Fin 16),
        (table_for c a).getD i.val "" = "" →
        (identify_token_from_match ⟨c, a⟩ (pitch_image i.val)).1.type = .UNKNOWN ∧
        (identify_token_from_match ⟨c, a⟩ (pitch_image i.val)).1.value = .vNone) := by
  constructor <;> decide

/-- Witness for C6: clef SOL with the empty entry at pitch position 0. -/
theorem C6_witness :
    (table_for .SOL .NONE).getD 0 "" = "" ∧
    ((identify_token_from_match ⟨.SOL, .NONE⟩ (pitch_image 0)).1.type = .UNKNOWN ∧
     (identify_token_from_match ⟨.SOL, .NONE⟩ (pitch_image 0)).1.value = .vNone) :=
  ⟨by decide,
   C6_unknown_on_no_clef_or_empty_entry.2 .SOL .NONE ⟨0, by decide⟩ (by decide)⟩

/-- C7: a grammar-recognized NOTE token with a non-empty resolved payload
produces exactly one appended entry, payload underscore instrument, on the
FA list when the payload starts with FA_TOKEN and on the SOL list
otherwise; and no other parsing primitive (token read, error recording,
expectation, meter production, alteration production, meter decrement,
measure check) appends to either note list. -/
theorem C7_note_emission_routing :
    (∀ (s : MusicParserState) (t : Token) (v : String),
        s.current_token = some t → t.type = .NOTE → t.value = .vStr v → v ≠ "" →
        (starts_with v "FA_TOKEN" = true →
            (parse_note_height s).note_tokens_fa
              = s.note_tokens_fa ++ [v ++ "_" ++ format_value s.instrument_name] ∧
            (parse_note_height s).note_tokens_sol = s.note_tokens_sol) ∧
        (starts_with v "FA_TOKEN" = false →
            (parse_note_height s).note_tokens_sol
              = s.note_tokens_sol ++ [v ++ "_" ++ format_value s.instrument_name] ∧
            (parse_note_height s).note_tokens_fa = s.note_tokens_fa)) ∧
    (∀ s : MusicParserState,
        (read_next_token s).note_tokens_fa = s.note_tokens_fa ∧
        (read_next_token s).note_tokens_sol = s.note_tokens_sol) ∧
    (∀ (s : MusicParserState) (c : String),
        (record_error s c).note_tokens_fa = s.note_tokens_fa ∧
        (record_error s c).note_tokens_sol = s.note_tokens_sol) ∧
    (∀ (s : MusicParserState) (k : TokenType) (c : String),
        ((expect s k c).2).note_tokens_fa = s.note_tokens_fa ∧
        ((expect s k c).2).note_tokens_sol = s.note_tokens_sol) ∧
    (∀ s : MusicParserState,
        (parse_meter s).note_tokens_fa = s.note_tokens_fa ∧
        (parse_meter s).note_tokens_sol = s.note_tokens_sol) ∧
    (∀ s : MusicParserState,
        (parse_alteration s).note_tokens_fa = s.note_tokens_fa ∧
        (parse_alteration s).note_tokens_sol = s.note_tokens_sol) ∧
    (∀ s : MusicParserState,
        (meter_decrement s).note_tokens_fa = s.note_tokens_fa ∧
        (meter_decrement s).note_tokens_sol = s.note_tokens_sol) ∧
    (∀ s : MusicParserState,
        (measure_check s).note_tokens_fa = s.note_tokens_fa ∧
        (measure_check s).note_tokens_sol = s.note_tokens_sol) := by
  refine ⟨?_, notes_read_next_token, fun _ _ => ⟨rfl, rfl⟩, notes_expect,
          notes_parse_meter, notes_parse_alteration,
          notes_meter_decrement, notes_measure_check⟩
  intro s t v hc ht hv hne
  constructor
  · intro hfa
    rw [parse_note_height_fa hc ht hv hne hfa]
    exact ⟨rfl, rfl⟩
  · intro hfa
    rw [parse_note_height_sol hc ht hv hne hfa]
    exact ⟨rfl, rfl⟩

/-- A NOTE lookahead token used to instantiate C7: a treble-family payload
routed to the SOL list. -/
def c7_note : Token :=
  { type := .NOTE, value := .vStr "SOL_TOKEN_DO_H", clef := .SOL }

/-- Witness for C7 at a concrete parser state holding a SOL-family note. -/
theorem C7_witness :
    starts_with "SOL_TOKEN_DO_H" "FA_TOKEN" = false ∧
    ((parse_note_height (sample_token_state c7_note)).note_tokens_sol
       = (sample_token_state c7_note).note_tokens_sol ++
         ["SOL_TOKEN_DO_H" ++ "_" ++
          format_value (sample_token_state c7_note).instrument_name] ∧
     (parse_note_height (sample_token_state c7_note)).note_tokens_fa
       = (sample_token_state c7_note).note_tokens_fa) :=
  ⟨by decide,
   (C7_note_emission_routing.1 (sample_token_state c7_note) c7_note
      "SOL_TOKEN_DO_H" rfl rfl rfl (by decide)).2 (by decide)⟩

/-- C8: a PAUSE or HALF_PAUSE token appends its kind name, with no
instrument suffix, to the FA list when the clef recorded on the token is
FA, and to the SOL list for any other recorded clef. -/
theorem C8_silence_routed_by_recorded_clef :
    ∀ (s : MusicParserState) (t : Token),
      s.current_token = some t →
      t.type = .PAUSE ∨ t.type = .HALF_PAUSE →
      ((t.clef = .FA →
          (parse_silence s).note_tokens_fa = s.note_tokens_fa ++ [type_name t.type] ∧
          (parse_silence s).note_tokens_sol = s.note_tokens_sol) ∧
       (t.clef ≠ .FA →
          (parse_silence s).note_tokens_sol = s.note_tokens_sol ++ [type_name t.type] ∧
          (parse_silence s).note_tokens_fa = s.note_tokens_fa)) ∧
      type_name TokenType.PAUSE = "PAUSE" ∧
      type_name TokenType.HALF_PAUSE = "HALF_PAUSE" := by
  intro s t hc _htyp
  have hcur : curr s = t := by simp [curr, hc]
  refine ⟨⟨?_, ?_⟩, rfl, rfl⟩
  · intro hfa
    unfold parse_silence
    rw [hcur, if_pos hfa]
    exact ⟨rfl, rfl⟩
  · intro hfa
    unfold parse_silence
    rw [hcur, if_neg hfa]
    exact ⟨rfl, rfl⟩

/-- A PAUSE token recorded under the FA clef, used to instantiate C8. -/
def c8_pause : Token := { type := .PAUSE, clef := .FA }

/-- Witness for C8 at a concrete parser state holding an FA-clef pause. -/
theorem C8_witness :
    (c8_pause.type = .PAUSE ∨ c8_pause.type = .HALF_PAUSE) ∧
    c8_pause.clef = .FA ∧
    ((parse_silence (sample_token_state c8_pause)).note_tokens_fa
       = (sample_token_state c8_pause).note_tokens_fa ++ [type_name c8_pause.type] ∧
     (parse_silence (sample_token_state c8_pause)).note_tokens_sol
       = (sample_token_state c8_pause).note_tokens_sol) :=
  ⟨Or.inl rfl, rfl,
   ((C8_silence_routed_by_recorded_clef (sample_token_state c8_pause) c8_pause
       rfl (Or.inl rfl)).1).1 rfl⟩

/-- C9: the symbol production decrements the live meter counter only while
it is positive; the measure check never touches the error flag, and with a
declared meter and a non-zero counter it resets the counter to the meter
value for the next measure; the measure production applies exactly this
check after its symbols; and on a concrete stream with meter 3 and a
one-symbol measure the parse still succeeds with no recorded error. -/
theorem C9_meter_counter_nonfatal :
    (∀ s : MusicParserState, s.meter_controller > 0 →
        meter_decrement s = { s with meter_controller := s.meter_controller - 1 }) ∧
    (∀ s : MusicParserState, ¬ s.meter_controller > 0 → meter_decrement s = s) ∧
    (∀ s : MusicParserState, (measure_check s).has_error = s.has_error) ∧
    (∀ s : MusicParserState, s.meter_value ≠ -1 → s.meter_controller ≠ 0 →
        measure_check s = { s with meter_controller := s.meter_value }) ∧
    (∀ (n : Nat) (s : MusicParserState),
        run_grammar (Nat.succ n) Production.measure s
          = measure_check (run_grammar n Production.symbols s)) ∧
    (parse_stream_ok ex9_stream = true ∧ (parse_stream ex9_stream).error_log = []) := by
  refine ⟨?_, ?_, ?_, ?_, ?_, by decide, by decide⟩
  · intro s h
    unfold meter_decrement
    rw [if_pos h]
  · intro s h
    unfold meter_decrement
    rw [if_neg h]
  · intro s
    unfold measure_check
    split <;> rfl
  · intro s h1 h2
    unfold measure_check
    rw [if_pos ⟨h1, h2⟩]
  · intro n s
    rfl

/-- A parser state with declared meter 3 and live counter 2, used to
instantiate C9. -/
def c9_state : MusicParserState :=
  { init_state [] with meter_value := 3, meter_controller := 2 }

/-- Witness for C9 at a concrete state. -/
theorem C9_witness :
    (c9_state.meter_controller > 0 ∧
     meter_decrement c9_state = { c9_state with meter_controller := c9_state.meter_controller - 1 }) ∧
    (c9_state.meter_value ≠ -1 ∧ c9_state.meter_controller ≠ 0 ∧
     measure_check c9_state = { c9_state with meter_controller := c9_state.meter_value }) :=
  ⟨⟨by decide, C9_meter_counter_nonfatal.1 c9_state (by decide)⟩,
   ⟨by decide, by decide,
    C9_meter_counter_nonfatal.2.2.2.1 c9_state (by decide) (by decide)⟩⟩

/-- C10: parse() starts by resetting every parser-owned field (lookahead,
error flag and message, names, meter value and counter, both output lists)
and the held clef and alteration of the owned classifier, so the state
after reset equals a freshly initialized parser over the same source and
two parses over the same token source give identical results regardless of
any state left by an earlier parse. -/
theorem C10_reset_isolates_parses :
    ∀ s1 s2 : MusicParserState, s1.rest = s2.rest →
      reset_state s1 = init_state s1.rest ∧
      parse_run s1 = parse_run s2 ∧
      parse s1 = parse s2 := by
  have hreset : ∀ s : MusicParserState, reset_state s = init_state s.rest := by
    intro s
    cases s
    rfl
  intro s1 s2 hr
  have hrun : parse_run s1 = parse_run s2 := by
    unfold parse_run
    rw [hreset s1, hreset s2, hr]
  refine ⟨hreset s1, hrun, ?_⟩
  unfold parse
  rw [hrun]

/-- A parser state littered with leftovers from a previous run. -/
def c10_dirty1 : MusicParserState :=
  { init_state ex2_stream with
    has_error := true
    error_message := "stale"
    note_tokens_sol := ["LEFTOVER_ENTRY"]
    meter_value := 7
    meter_controller := 2
    partition_name := .vStr "Old"
    instrument_name := .vStr "Organ"
    current_token := some { type := .PAUSE }
    image_state := ⟨.FA, .DIESE⟩ }

/-- A second parser state over the same source with different leftovers. -/
def c10_dirty2 : MusicParserState :=
  { init_state ex2_stream with
    note_tokens_fa := ["OTHER_ENTRY"]
    image_state := ⟨.SOL, .BEMOL⟩ }

/-- Witness for C10 at two concretely dirtied states over the same source. -/
theorem C10_witness :
    c10_dirty1.rest = c10_dirty2.rest ∧
    (reset_state c10_dirty1 = init_state c10_dirty1.rest ∧
     parse_run c10_dirty1 = parse_run c10_dirty2 ∧
     parse c10_dirty1 = parse c10_dirty2) :=
  ⟨by decide, C10_reset_isolates_parses c10_dirty1 c10_dirty2 (by decide)⟩
